import Mathlib

/-!
Verification of the orbital-mechanics / N-body core of the 99942-apophis
repository, shallowly embedded over the real numbers.

The embedding covers the following source files:
* src/physics/OrbitalMechanics.ts  (class OrbitalMechanics)
* src/lib/physics/risk-calculator.ts (solveKeplerEquation, calculateOrbitalState)
* src/lib/physics/nbody-simulator.ts (both the array-based NBodySimulator and
  the map-based NBodySimulator keyed by body name)

JavaScript IEEE-754 doubles are modelled as real numbers; JavaScript Map
objects are modelled as association lists whose iteration order is insertion
order (which is what the JS Map contract guarantees); the non-null assertion
operator `!` on lookups is modelled by `Option.getD` with an inert default.
-/

namespace Apophis

noncomputable section

/-- 3-component vector of reals, the model of both the `Vector3D` interface
and the `[number, number, number]` tuples of the source. -/
@[ext]
structure Vector3D where
  x : ℝ
  y : ℝ
  z : ℝ

/-- The zero vector. -/
def vzero : Vector3D := ⟨0, 0, 0⟩

/-- Componentwise addition, used to model `acc.x += ...` accumulations. -/
def vadd (a b : Vector3D) : Vector3D := ⟨a.x + b.x, a.y + b.y, a.z + b.z⟩

/-- Cartesian state of a body: position (m) and velocity (m/s).
Models the `StateVector` interface of src/physics and the `BodyState`
interface of src/lib. -/
structure StateVector where
  position : Vector3D
  velocity : Vector3D

/-- Gravitational constant, `CONSTANTS.G` of Scene3D.ts and the exported `G`
of src/lib/constants.ts (both are the literal 6.6743e-11). -/
def G : ℝ := 6.6743e-11

/-- Astronomical unit in meters, `CONSTANTS.AU` and the exported `AU`
(both are the literal 1.495978707e11). -/
def AU : ℝ := 1.495978707e11

/-- `CONSTANTS.SECONDS_PER_DAY` (= 86400). -/
def SECONDS_PER_DAY : ℝ := 86400

/-- Distance helper: the value `Math.sqrt(dx*dx + dy*dy + dz*dz)` for the
displacement from `a` to `b`. -/
def distOf (a b : Vector3D) : ℝ :=
  Real.sqrt ((b.x - a.x) * (b.x - a.x) + (b.y - a.y) * (b.y - a.y) +
    (b.z - a.z) * (b.z - a.z))

/-- `OrbitalMechanics.calculateGravitationalAcceleration` from
src/physics/OrbitalMechanics.ts: acceleration on a body at `position` due to
a body of mass `bodyMass` at `bodyPosition`, with the `distance < 1e-10`
singularity guard. -/
def calculateGravitationalAcceleration (position bodyPosition : Vector3D)
    (bodyMass : ℝ) : Vector3D :=
  let dx := bodyPosition.x - position.x
  let dy := bodyPosition.y - position.y
  let dz := bodyPosition.z - position.z
  let distanceSquared := dx * dx + dy * dy + dz * dz
  let distance := Real.sqrt distanceSquared
  if distance < 1e-10 then ⟨0, 0, 0⟩
  else
    let forceMagnitude := G * bodyMass / distanceSquared
    ⟨forceMagnitude * dx / distance, forceMagnitude * dy / distance,
      forceMagnitude * dz / distance⟩

/-- Claim C1 and C5 tolerance bound used by the acceleration guard. -/
def EPS : ℝ := 1e-10

/-! ## Kepler solvers and element-to-state converters -/
/-- Keplerian elements as declared in Scene3D.ts / src/physics types:
semi-major axis in AU, angles in degrees, mean anomaly at a reference
epoch (Julian date). -/
structure OrbitalElementsOM where
  semiMajorAxis : ℝ
  eccentricity : ℝ
  inclination : ℝ
  longitudeOfAscendingNode : ℝ
  argumentOfPeriapsis : ℝ
  meanAnomalyAtEpoch : ℝ
  epoch : ℝ

/-- Keplerian elements as declared in src/lib/types.ts: same fields except
the mean anomaly is given directly (time is passed separately, no epoch). -/
structure OrbitalElements where
  semiMajorAxis : ℝ
  eccentricity : ℝ
  inclination : ℝ
  longitudeOfAscendingNode : ℝ
  argumentOfPeriapsis : ℝ
  meanAnomaly : ℝ

/-- `degToRad` from risk-calculator.ts (and the inline `(x * Math.PI) / 180`
conversions of OrbitalMechanics.ts). -/
def degToRad (degrees : ℝ) : ℝ := degrees * Real.pi / 180

/-- Truncation toward zero, the rounding used by the JavaScript `%`
operator. -/
def jsTrunc (x : ℝ) : ℤ := if 0 ≤ x then ⌊x⌋ else ⌈x⌉

/-- The JavaScript remainder operator `a % b` on doubles:
`a - b * trunc(a / b)`. -/
def jsMod (a b : ℝ) : ℝ := a - b * (jsTrunc (a / b) : ℝ)

/-- The Newton-Raphson loop body of `OrbitalMechanics.solveKeplersEquation`:
`for (i = 0; i < fuel; i++) { dE := (E - e sin E - M)/(1 - e cos E);
E -= dE; if |dE| < tolerance break; }`. -/
def keplerIterOM (e M tolerance : ℝ) : ℕ → ℝ → ℝ
  | 0, E => E
  | n + 1, E =>
    let dE := (E - e * Real.sin E - M) / (1 - e * Real.cos E)
    let E1 := E - dE
    if |dE| < tolerance then E1 else keplerIterOM e M tolerance n E1

/-- `OrbitalMechanics.solveKeplersEquation(M, e, tolerance)`: normalize `M`
into [0, 2π) with the JS `%` operator, seed `E₀ = M + e sin M`, then at most
100 Newton-Raphson iterations.  The source gives `tolerance` the default
value 1e-10; callers in this file pass it explicitly. -/
def solveKeplersEquation (M e tolerance : ℝ) : ℝ :=
  let M1 := jsMod M (2 * Real.pi)
  let M2 := if M1 < 0 then M1 + 2 * Real.pi else M1
  keplerIterOM e M2 tolerance 100 (M2 + e * Real.sin M2)

/-- The while-loop of `solveKeplerEquation` in risk-calculator.ts: the
carried `delta` starts at 1, the loop runs while `|delta| > tolerance` and
fewer than 100 iterations have happened. -/
def keplerIterRC (e M tolerance : ℝ) : ℕ → ℝ → ℝ → ℝ
  | 0, _, E => E
  | n + 1, delta, E =>
    if |delta| > tolerance then
      let d1 := (E - e * Real.sin E - M) / (1 - e * Real.cos E)
      keplerIterRC e M tolerance n d1 (E - d1)
    else E

/-- `solveKeplerEquation(M, e, tolerance)` from risk-calculator.ts: seed
`E = M`, `delta = 1`, at most 100 iterations.  The source default for
`tolerance` is 1e-6; callers in this file pass it explicitly. -/
def solveKeplerEquation (M e tolerance : ℝ) : ℝ :=
  keplerIterRC e M tolerance 100 1 M

/-- JavaScript `Math.atan2(y, x)` on non-NaN doubles (the signed-zero
distinction of IEEE-754 is not modelled; every use in this file has
`x > 0`). -/
def atan2 (y x : ℝ) : ℝ :=
  if 0 < x then Real.arctan (y / x)
  else if x < 0 then
    (if 0 ≤ y then Real.arctan (y / x) + Real.pi else Real.arctan (y / x) - Real.pi)
  else if 0 < y then Real.pi / 2
  else if y < 0 then -(Real.pi / 2)
  else 0

/-- `OrbitalMechanics.orbitalElementsToStateVector(elements, centralBodyMass,
currentTime)` from src/physics/OrbitalMechanics.ts, translated line by
line. -/
def orbitalElementsToStateVector (elements : OrbitalElementsOM)
    (centralBodyMass currentTime : ℝ) : StateVector :=
  let e := elements.eccentricity
  let i := elements.inclination * Real.pi / 180
  let Om := elements.longitudeOfAscendingNode * Real.pi / 180
  let om := elements.argumentOfPeriapsis * Real.pi / 180
  let M0 := elements.meanAnomalyAtEpoch * Real.pi / 180
  let a := elements.semiMajorAxis * AU
  let mu := G * centralBodyMass
  let n := Real.sqrt (mu / (a * a * a))
  let timeSinceEpoch := (currentTime - elements.epoch) * SECONDS_PER_DAY
  let M := M0 + n * timeSinceEpoch
  let E := solveKeplersEquation M e 1e-10
  let nu := 2 * atan2 (Real.sqrt (1 + e) * Real.sin (E / 2))
    (Real.sqrt (1 - e) * Real.cos (E / 2))
  let r := a * (1 - e * Real.cos E)
  let xOrbital := r * Real.cos nu
  let yOrbital := r * Real.sin nu
  let vFactor := Real.sqrt (mu / a)
  let vxOrbital := -(vFactor / Real.sqrt (1 - e * e)) * Real.sin E
  let vyOrbital := vFactor / Real.sqrt (1 - e * e) * Real.sqrt (1 - e * e) *
    Real.cos E
  let cosOmega := Real.cos Om
  let sinOmega := Real.sin Om
  let cosomega := Real.cos om
  let sinomega := Real.sin om
  let cosi := Real.cos i
  let sini := Real.sin i
  let position : Vector3D :=
    ⟨(cosOmega * cosomega - sinOmega * sinomega * cosi) * xOrbital +
       (-cosOmega * sinomega - sinOmega * cosomega * cosi) * yOrbital,
     (sinOmega * cosomega + cosOmega * sinomega * cosi) * xOrbital +
       (-sinOmega * sinomega + cosOmega * cosomega * cosi) * yOrbital,
     sinomega * sini * xOrbital + cosomega * sini * yOrbital⟩
  let velocity : Vector3D :=
    ⟨(cosOmega * cosomega - sinOmega * sinomega * cosi) * vxOrbital +
       (-cosOmega * sinomega - sinOmega * cosomega * cosi) * vyOrbital,
     (sinOmega * cosomega + cosOmega * sinomega * cosi) * vxOrbital +
       (-sinOmega * sinomega + cosOmega * cosomega * cosi) * vyOrbital,
     sinomega * sini * vxOrbital + cosomega * sini * vyOrbital⟩
  ⟨position, velocity⟩

/-- `calculateOrbitalState(elements, centralBodyMass, time, parentBodyState)`
from risk-calculator.ts, translated line by line.  This is the variant whose
orbital-plane velocity goes through the specific angular momentum
`h = sqrt(μ a (1−e²))`. -/
def calculateOrbitalState (elements : OrbitalElements)
    (centralBodyMass time : ℝ) (parentBodyState : Option StateVector) :
    StateVector :=
  let e := elements.eccentricity
  let i := degToRad elements.inclination
  let Om := degToRad elements.longitudeOfAscendingNode
  let om := degToRad elements.argumentOfPeriapsis
  let M0 := degToRad elements.meanAnomaly
  let a := elements.semiMajorAxis * AU
  let mu := G * centralBodyMass
  let n := Real.sqrt (mu / (a * a * a))
  let M := M0 + n * time
  let E := solveKeplerEquation M e 1e-6
  let nu := 2 * atan2 (Real.sqrt (1 + e) * Real.sin (E / 2))
    (Real.sqrt (1 - e) * Real.cos (E / 2))
  let r := a * (1 - e * Real.cos E)
  let xOrbital := r * Real.cos nu
  let yOrbital := r * Real.sin nu
  let h := Real.sqrt (mu * a * (1 - e * e))
  let vxOrbital := -(mu / h) * Real.sin nu
  let vyOrbital := mu / h * (e + Real.cos nu)
  let cosOmega := Real.cos Om
  let sinOmega := Real.sin Om
  let cosomega := Real.cos om
  let sinomega := Real.sin om
  let cosi := Real.cos i
  let sini := Real.sin i
  let px := (cosOmega * cosomega - sinOmega * sinomega * cosi) * xOrbital +
    (-cosOmega * sinomega - sinOmega * cosomega * cosi) * yOrbital
  let py := (sinOmega * cosomega + cosOmega * sinomega * cosi) * xOrbital +
    (-sinOmega * sinomega + cosOmega * cosomega * cosi) * yOrbital
  let pz := sinomega * sini * xOrbital + cosomega * sini * yOrbital
  let vx := (cosOmega * cosomega - sinOmega * sinomega * cosi) * vxOrbital +
    (-cosOmega * sinomega - sinOmega * cosomega * cosi) * vyOrbital
  let vy := (sinOmega * cosomega + cosOmega * sinomega * cosi) * vxOrbital +
    (-sinOmega * sinomega + cosOmega * cosomega * cosi) * vyOrbital
  let vz := sinomega * sini * vxOrbital + cosomega * sini * vyOrbital
  match parentBodyState with
  | some parent =>
      ⟨⟨px + parent.position.x, py + parent.position.y, pz + parent.position.z⟩,
       ⟨vx + parent.velocity.x, vy + parent.velocity.y, vz + parent.velocity.z⟩⟩
  | none => ⟨⟨px, py, pz⟩, ⟨vx, vy, vz⟩⟩

/-! ## Claim C2: the perifocal velocity relation and the 3-1-3 rotation

The spec-side definitions below follow the words of the spec (section 4.2,
steps 8 and 9): orbital-plane velocity `(−(μ/h)·sin ν, (μ/h)·(e + cos ν))`
with `h = sqrt(G·centralMass·a·(1−e²))`, mapped into the reference frame by
the 3-1-3 Euler rotation by `Ω`, `i`, `ω`. -/
/-- Rotation about the z-axis by angle `t`. -/
def rotZ (t : ℝ) (v : Vector3D) : Vector3D :=
  ⟨Real.cos t * v.x - Real.sin t * v.y, Real.sin t * v.x + Real.cos t * v.y, v.z⟩

/-- Rotation about the x-axis by angle `t`. -/
def rotX (t : ℝ) (v : Vector3D) : Vector3D :=
  ⟨v.x, Real.cos t * v.y - Real.sin t * v.z, Real.sin t * v.y + Real.cos t * v.z⟩

/-- The standard 3-1-3 Euler rotation by `Ω`, `i`, `ω` named by the spec:
`Rz(Ω) ∘ Rx(i) ∘ Rz(ω)`. -/
def rot313 (Om i om : ℝ) (v : Vector3D) : Vector3D := rotZ Om (rotX i (rotZ om v))

/-- The velocity vector that claim C2 asserts for the epoch-aware converter
`orbitalElementsToStateVector`: the perifocal velocity of the spec rotated by
the 3-1-3 rotation, with `μ`, `a`, `ν` derived from the elements exactly the
way that converter derives them. -/
def c2SpecVelocityOM (elements : OrbitalElementsOM)
    (centralBodyMass currentTime : ℝ) : Vector3D :=
  let e := elements.eccentricity
  let i := elements.inclination * Real.pi / 180
  let Om := elements.longitudeOfAscendingNode * Real.pi / 180
  let om := elements.argumentOfPeriapsis * Real.pi / 180
  let M0 := elements.meanAnomalyAtEpoch * Real.pi / 180
  let a := elements.semiMajorAxis * AU
  let mu := G * centralBodyMass
  let n := Real.sqrt (mu / (a * a * a))
  let M := M0 + n * ((currentTime - elements.epoch) * SECONDS_PER_DAY)
  let E := solveKeplersEquation M e 1e-10
  let nu := 2 * atan2 (Real.sqrt (1 + e) * Real.sin (E / 2))
    (Real.sqrt (1 - e) * Real.cos (E / 2))
  let h := Real.sqrt (mu * a * (1 - e * e))
  rot313 Om i om ⟨-(mu / h) * Real.sin nu, mu / h * (e + Real.cos nu), 0⟩

/-- The velocity vector that claim C2 asserts for the risk-calculator
converter `calculateOrbitalState`, following the spec words the same way. -/
def c2SpecVelocityRC (elements : OrbitalElements)
    (centralBodyMass time : ℝ) : Vector3D :=
  let e := elements.eccentricity
  let i := degToRad elements.inclination
  let Om := degToRad elements.longitudeOfAscendingNode
  let om := degToRad elements.argumentOfPeriapsis
  let M0 := degToRad elements.meanAnomaly
  let a := elements.semiMajorAxis * AU
  let mu := G * centralBodyMass
  let n := Real.sqrt (mu / (a * a * a))
  let M := M0 + n * time
  let E := solveKeplerEquation M e 1e-6
  let nu := 2 * atan2 (Real.sqrt (1 + e) * Real.sin (E / 2))
    (Real.sqrt (1 - e) * Real.cos (E / 2))
  let h := Real.sqrt (mu * a * (1 - e * e))
  rot313 Om i om ⟨-(mu / h) * Real.sin nu, mu / h * (e + Real.cos nu), 0⟩

/-- The concrete element set used to refute claim C2 against the epoch-aware
converter: `a = 1 AU`, `e = 1/2`, all angles zero, epoch 0. -/
def c2Elements : OrbitalElementsOM := ⟨1, 1/2, 0, 0, 0, 0, 0⟩

/-! ## The map-based N-body simulator of src/lib/physics/nbody-simulator.ts

The `Map<string, ...>` registries are modelled as association lists in
insertion order.  `map.get(k)` is `alookup`; `map.set(k, v)` is `setEntry`
(replace in place or append, the JS Map contract); the non-null assertion
`map.get(k)!` is modelled by `Option.getD` with an inert default value. -/
/-- First value bound to key `k`, i.e. `map.get(k)` for a JS Map in
insertion order. -/
def alookup {α : Type} : List (String × α) → String → Option α
  | [], _ => none
  | (k, v) :: rest, n => if k = n then some v else alookup rest n

/-- `map.set(k, v)` on a JS Map: overwrite in place if the key is present,
append otherwise. -/
def setEntry {α : Type} : List (String × α) → String → α → List (String × α)
  | [], n, v => [(n, v)]
  | (k, w) :: rest, n, v =>
      if k = n then (n, v) :: rest else (k, w) :: setEntry rest n v

/-- `CelestialBodyProperties` of the map-based simulator: name (the Map
key), mass, radius, the `isCenter` flag (absent means `false` in JS) and
optional orbital elements. -/
structure CelestialBodyProperties where
  name : String
  mass : ℝ
  radius : ℝ
  isCenter : Bool
  orbitalElements : Option OrbitalElementsOM

/-- Inert stand-in used to model the JS non-null assertion on a body
lookup. -/
def defaultBody : CelestialBodyProperties := ⟨"", 0, 0, false, none⟩

/-- Inert stand-in used to model the JS non-null assertion on a state
lookup. -/
def defaultState : StateVector := ⟨⟨0, 0, 0⟩, ⟨0, 0, 0⟩⟩

/-- The integration-method tag of `SimulationConfig`. -/
inductive IntegrationMethod
  | euler
  | verlet
  | rk4

/-- `SimulationConfig` from the types module. -/
structure SimulationConfig where
  timeStep : ℝ
  timeScale : ℝ
  enablePerturbations : Bool
  integrationMethod : IntegrationMethod

/-- The private fields of the map-based `NBodySimulator` class:
`bodies` (a Map keyed by `body.name`, modelled as a list of bodies in
insertion order since the key always equals the name field), `states`,
`config` and `currentTime` (Julian date). -/
structure NBodySimulator where
  bodies : List CelestialBodyProperties
  states : List (String × StateVector)
  config : SimulationConfig
  currentTime : ℝ

/-- `this.bodies.get(name)` — the bodies Map is keyed by body name. -/
def bodiesGet (bodies : List CelestialBodyProperties) (n : String) :
    Option CelestialBodyProperties :=
  bodies.find? (fun b => b.name = n)

/-- `bodies.set(body.name, body)`. -/
def setBody : List CelestialBodyProperties → CelestialBodyProperties →
    List CelestialBodyProperties
  | [], b => [b]
  | c :: rest, b => if c.name = b.name then b :: rest else c :: setBody rest b

/-- `Array.from(this.bodies.values()).find((b) => b.isCenter)`. -/
def findCenter (bodies : List CelestialBodyProperties) :
    Option CelestialBodyProperties :=
  bodies.find? (fun b => b.isCenter)

/-- The acceleration that `calculateAccelerations` computes for the entry
`(name, state)` of the states Map: zero for a center body; with
perturbations enabled, the summed pairwise contributions of every other
body of the registry; with perturbations disabled, the contribution of the
first center body only (or zero when there is none). -/
def accelerationFor (bodies : List CelestialBodyProperties)
    (states : List (String × StateVector)) (cfg : SimulationConfig)
    (name : String) (state : StateVector) : Vector3D :=
  let body := (bodiesGet bodies name).getD defaultBody
  if body.isCenter then ⟨0, 0, 0⟩
  else if cfg.enablePerturbations then
    bodies.foldl (fun acc otherBody =>
      if otherBody.name ≠ name then
        let otherState := (alookup states otherBody.name).getD defaultState
        vadd acc (calculateGravitationalAcceleration state.position
          otherState.position otherBody.mass)
      else acc) ⟨0, 0, 0⟩
  else
    match findCenter bodies with
    | some centerBody =>
        let centerState := (alookup states centerBody.name).getD defaultState
        calculateGravitationalAcceleration state.position centerState.position
          centerBody.mass
    | none => ⟨0, 0, 0⟩

/-- `calculateAccelerations()`: one acceleration per states-Map entry, in
states order. -/
def calculateAccelerations (bodies : List CelestialBodyProperties)
    (states : List (String × StateVector)) (cfg : SimulationConfig) :
    List (String × Vector3D) :=
  states.map (fun p => (p.1, accelerationFor bodies states cfg p.1 p.2))

/-- The per-entry update of `eulerStep`: velocity is updated first and the
position update then uses the updated velocity. -/
def eulerState (accelerations : List (String × Vector3D)) (dt : ℝ)
    (n : String) (s : StateVector) : StateVector :=
  let acc := (alookup accelerations n).getD ⟨0, 0, 0⟩
  let v : Vector3D := ⟨s.velocity.x + acc.x * dt, s.velocity.y + acc.y * dt,
    s.velocity.z + acc.z * dt⟩
  ⟨⟨s.position.x + v.x * dt, s.position.y + v.y * dt,
    s.position.z + v.z * dt⟩, v⟩

/-- `eulerStep(dt)`. -/
def eulerStep (sim : NBodySimulator) (dt : ℝ) : NBodySimulator :=
  let accelerations := calculateAccelerations sim.bodies sim.states sim.config
  { sim with states := sim.states.map (fun p =>
      (p.1, eulerState accelerations dt p.1 p.2)) }

/-- The first-pass update of `verletStep`: position update
`x += v·dt + ½·a·dt²` followed by the first half-kick `v += ½·a·dt`. -/
def verletState1 (accelerations : List (String × Vector3D)) (dt : ℝ)
    (n : String) (s : StateVector) : StateVector :=
  let acc := (alookup accelerations n).getD ⟨0, 0, 0⟩
  StateVector.mk
    ⟨s.position.x + s.velocity.x * dt + 0.5 * acc.x * dt * dt,
     s.position.y + s.velocity.y * dt + 0.5 * acc.y * dt * dt,
     s.position.z + s.velocity.z * dt + 0.5 * acc.z * dt * dt⟩
    ⟨s.velocity.x + 0.5 * acc.x * dt, s.velocity.y + 0.5 * acc.y * dt,
     s.velocity.z + 0.5 * acc.z * dt⟩

/-- The second-pass update of `verletStep`: the second half-kick. -/
def verletState2 (newAccelerations : List (String × Vector3D)) (dt : ℝ)
    (n : String) (s : StateVector) : StateVector :=
  let acc := (alookup newAccelerations n).getD ⟨0, 0, 0⟩
  StateVector.mk s.position
    ⟨s.velocity.x + 0.5 * acc.x * dt, s.velocity.y + 0.5 * acc.y * dt,
     s.velocity.z + 0.5 * acc.z * dt⟩

/-- `verletStep(dt)`: first pass over all entries, acceleration
recomputation at the updated states, second pass. -/
def verletStep (sim : NBodySimulator) (dt : ℝ) : NBodySimulator :=
  let accelerations := calculateAccelerations sim.bodies sim.states sim.config
  let states1 := sim.states.map (fun p =>
      (p.1, verletState1 accelerations dt p.1 p.2))
  let newAccelerations := calculateAccelerations sim.bodies states1 sim.config
  { sim with states := states1.map (fun p =>
      (p.1, verletState2 newAccelerations dt p.1 p.2)) }

/-- A position-velocity derivative pair, the record produced for each body
by `calculateDerivatives`. -/
structure Deriv where
  velocity : Vector3D
  acceleration : Vector3D

/-- Inert stand-in for the JS non-null assertion on a derivatives lookup. -/
def defaultDeriv : Deriv := ⟨⟨0, 0, 0⟩, ⟨0, 0, 0⟩⟩

/-- The acceleration part of the derivative that `calculateDerivatives`
computes for entry `(name, state)` of the passed states array (the branch
structure of the source: perturbations first, then the two-body center
branch, with a center body never accelerated). -/
def derivAccelerationFor (bodies : List CelestialBodyProperties)
    (cfg : SimulationConfig) (states : List (String × StateVector))
    (name : String) (state : StateVector) : Vector3D :=
  let body := (bodiesGet bodies name).getD defaultBody
  if !body.isCenter && cfg.enablePerturbations then
    bodies.foldl (fun acc otherBody =>
      if otherBody.name ≠ name then
        let otherState := (alookup states otherBody.name).getD defaultState
        vadd acc (calculateGravitationalAcceleration state.position
          otherState.position otherBody.mass)
      else acc) ⟨0, 0, 0⟩
  else if !body.isCenter then
    match findCenter bodies with
    | some centerBody =>
        let centerState := (alookup states centerBody.name).getD defaultState
        calculateGravitationalAcceleration state.position centerState.position
          centerBody.mass
    | none => ⟨0, 0, 0⟩
  else ⟨0, 0, 0⟩

/-- `calculateDerivatives(states)`: per entry, the velocity copied from the
entry and the acceleration of `derivAccelerationFor`. -/
def calculateDerivatives (bodies : List CelestialBodyProperties)
    (cfg : SimulationConfig) (states : List (String × StateVector)) :
    List (String × Deriv) :=
  states.map (fun p =>
    (p.1, Deriv.mk p.2.velocity (derivAccelerationFor bodies cfg states p.1 p.2)))

/-- The per-entry update of `addDerivatives`. -/
def addDerivState (derivatives : List (String × Deriv)) (dt : ℝ)
    (n : String) (s : StateVector) : StateVector :=
  let d := (alookup derivatives n).getD defaultDeriv
  StateVector.mk
    ⟨s.position.x + d.velocity.x * dt, s.position.y + d.velocity.y * dt,
      s.position.z + d.velocity.z * dt⟩
    ⟨s.velocity.x + d.acceleration.x * dt, s.velocity.y + d.acceleration.y * dt,
      s.velocity.z + d.acceleration.z * dt⟩

/-- `addDerivatives(states, derivatives, dt)`. -/
def addDerivatives (states : List (String × StateVector))
    (derivatives : List (String × Deriv)) (dt : ℝ) :
    List (String × StateVector) :=
  states.map (fun p => (p.1, addDerivState derivatives dt p.1 p.2))

/-- The final combination step of `rk4Step` for one entry:
`dt/6 · (k1 + 2k2 + 2k3 + k4)` for position and velocity. -/
def rk4FinalState (k1 k2 k3 k4 : List (String × Deriv)) (dt : ℝ)
    (n : String) (s : StateVector) : StateVector :=
  let d1 := (alookup k1 n).getD defaultDeriv
  let d2 := (alookup k2 n).getD defaultDeriv
  let d3 := (alookup k3 n).getD defaultDeriv
  let d4 := (alookup k4 n).getD defaultDeriv
  StateVector.mk
    ⟨s.position.x + dt / 6 * (d1.velocity.x + 2 * d2.velocity.x +
        2 * d3.velocity.x + d4.velocity.x),
     s.position.y + dt / 6 * (d1.velocity.y + 2 * d2.velocity.y +
        2 * d3.velocity.y + d4.velocity.y),
     s.position.z + dt / 6 * (d1.velocity.z + 2 * d2.velocity.z +
        2 * d3.velocity.z + d4.velocity.z)⟩
    ⟨s.velocity.x + dt / 6 * (d1.acceleration.x + 2 * d2.acceleration.x +
        2 * d3.acceleration.x + d4.acceleration.x),
     s.velocity.y + dt / 6 * (d1.acceleration.y + 2 * d2.acceleration.y +
        2 * d3.acceleration.y + d4.acceleration.y),
     s.velocity.z + dt / 6 * (d1.acceleration.z + 2 * d2.acceleration.z +
        2 * d3.acceleration.z + d4.acceleration.z)⟩

/-- `rk4Step(dt)`: the four staged derivative evaluations and the final
`dt/6 · (k1 + 2k2 + 2k3 + k4)` combination for the whole system jointly. -/
def rk4Step (sim : NBodySimulator) (dt : ℝ) : NBodySimulator :=
  let k1 := calculateDerivatives sim.bodies sim.config sim.states
  let states2 := addDerivatives sim.states k1 (dt / 2)
  let k2 := calculateDerivatives sim.bodies sim.config states2
  let states3 := addDerivatives sim.states k2 (dt / 2)
  let k3 := calculateDerivatives sim.bodies sim.config states3
  let states4 := addDerivatives sim.states k3 dt
  let k4 := calculateDerivatives sim.bodies sim.config states4
  { sim with states := sim.states.map (fun p =>
      (p.1, rk4FinalState k1 k2 k3 k4 dt p.1 p.2)) }

/-- `step()`: `dt = timeStep × timeScale`, dispatch on the configured
method, then `currentTime += dt / 86400`. -/
def NBodySimulator.step (sim : NBodySimulator) : NBodySimulator :=
  let dt := sim.config.timeStep * sim.config.timeScale
  let sim1 :=
    match sim.config.integrationMethod with
    | IntegrationMethod.euler => eulerStep sim dt
    | IntegrationMethod.verlet => verletStep sim dt
    | IntegrationMethod.rk4 => rk4Step sim dt
  { sim1 with currentTime := sim1.currentTime + dt / 86400 }

/-- `addBody(body, initialState?)`. -/
def addBody (sim : NBodySimulator) (body : CelestialBodyProperties)
    (initialState : Option StateVector) : NBodySimulator :=
  let bodies := setBody sim.bodies body
  match initialState with
  | some st =>
      { sim with
        bodies := bodies
        states := setEntry sim.states body.name st }
  | none =>
      match body.orbitalElements, body.isCenter with
      | some el, false =>
          match findCenter bodies with
          | some centerBody =>
              { sim with
                bodies := bodies
                states := setEntry sim.states body.name
                  (orbitalElementsToStateVector el centerBody.mass
                    sim.currentTime) }
          | none => { sim with bodies := bodies }
      | _, true =>
          { sim with
            bodies := bodies
            states := setEntry sim.states body.name ⟨⟨0, 0, 0⟩, ⟨0, 0, 0⟩⟩ }
      | _, _ => { sim with bodies := bodies }

/-- `getState(name)`. -/
def getState (sim : NBodySimulator) (n : String) : Option StateVector :=
  alookup sim.states n

/-- `getCurrentTime()`. -/
def getCurrentTime (sim : NBodySimulator) : ℝ := sim.currentTime

/-- `updateConfig(config)`: the source merges a `Partial<SimulationConfig>`
over the current config; since every merge result is some full config, the
model takes the merged config directly. -/
def updateConfig (sim : NBodySimulator) (cfg : SimulationConfig) :
    NBodySimulator :=
  { sim with config := cfg }

/-- The per-body action of the `forEach` loop in `reset`: derive and store a
state for an element-carrying non-center body (when the registry has a
center) and for the center body; leave the accumulator untouched
otherwise.  `allBodies` is `this.bodies`, over which the center is
searched. -/
def resetStepFn (allBodies : List CelestialBodyProperties) (t : ℝ)
    (sts : List (String × StateVector)) (body : CelestialBodyProperties) :
    List (String × StateVector) :=
  match body.orbitalElements, body.isCenter with
  | some el, false =>
      match findCenter allBodies with
      | some centerBody =>
          setEntry sts body.name
            (orbitalElementsToStateVector el centerBody.mass t)
      | none => sts
  | _, true => setEntry sts body.name ⟨⟨0, 0, 0⟩, ⟨0, 0, 0⟩⟩
  | _, _ => sts

/-- `reset(initialTime)`: set the epoch, clear the states Map, then run the
state-deriving loop over every registered body. -/
def reset (sim : NBodySimulator) (initialTime : ℝ) : NBodySimulator :=
  { sim with
    currentTime := initialTime
    states := sim.bodies.foldl (resetStepFn sim.bodies initialTime) [] }

/-- The state that `reset` stores for a given body, when it stores one:
`some` of the derived (or origin) state, `none` when the body contributes no
state.  Mirrors the branch structure of `resetStepFn`. -/
def resetProduce (allBodies : List CelestialBodyProperties) (t : ℝ)
    (body : CelestialBodyProperties) : Option StateVector :=
  match body.orbitalElements, body.isCenter with
  | some el, false =>
      (findCenter allBodies).map
        (fun centerBody => orbitalElementsToStateVector el centerBody.mass t)
  | _, true => some ⟨⟨0, 0, 0⟩, ⟨0, 0, 0⟩⟩
  | _, _ => none

/-- The origin state given to a center body: position and velocity zero. -/
def originState : StateVector := ⟨⟨0, 0, 0⟩, ⟨0, 0, 0⟩⟩

/-- A driver-level operation of claim C9: a `step()` call or an
`updateConfig` call (with the already-merged configuration). -/
inductive DriverOp
  | step : DriverOp
  | updateConfig : SimulationConfig → DriverOp

/-- Run one driver operation. -/
def runOp (sim : NBodySimulator) : DriverOp → NBodySimulator
  | DriverOp.step => sim.step
  | DriverOp.updateConfig cfg => updateConfig sim cfg

/-- Run a sequence of driver operations left to right. -/
def runOps (sim : NBodySimulator) (ops : List DriverOp) : NBodySimulator :=
  ops.foldl runOp sim

/-- The sum of the pairwise Newtonian contributions on `(name, state)` of
every other registered body, as the spec words the perturbations-enabled
policy of claim C3: each other body contributes
`calculateGravitationalAcceleration` of its looked-up position and mass. -/
def c3PairwiseSum (bodies : List CelestialBodyProperties)
    (states : List (String × StateVector)) (name : String)
    (state : StateVector) : Vector3D :=
  ((bodies.filter (fun b => b.name ≠ name)).map (fun b =>
    calculateGravitationalAcceleration state.position
      ((alookup states b.name).getD defaultState).position b.mass)).foldr
    vadd vzero

/-- The reference scheme's position update for one entry:
`x + v·dt + ½·a₀·dt²` with the velocity left unchanged. -/
def c4SpecDriftState (a0 : List (String × Vector3D)) (dt : ℝ)
    (n : String) (s : StateVector) : StateVector :=
  let acc := (alookup a0 n).getD ⟨0, 0, 0⟩
  StateVector.mk
    ⟨s.position.x + s.velocity.x * dt + 0.5 * acc.x * dt * dt,
     s.position.y + s.velocity.y * dt + 0.5 * acc.y * dt * dt,
     s.position.z + s.velocity.z * dt + 0.5 * acc.z * dt * dt⟩
    s.velocity

/-- The reference scheme's joint result for one entry: the drifted position
and the velocity updated by `½·(a₀+a₁)·dt` in one stroke. -/
def c4SpecFinalState (a0 a1 : List (String × Vector3D)) (dt : ℝ)
    (n : String) (s : StateVector) : StateVector :=
  let i0 := (alookup a0 n).getD ⟨0, 0, 0⟩
  let i1 := (alookup a1 n).getD ⟨0, 0, 0⟩
  StateVector.mk
    ⟨s.position.x + s.velocity.x * dt + 0.5 * i0.x * dt * dt,
     s.position.y + s.velocity.y * dt + 0.5 * i0.y * dt * dt,
     s.position.z + s.velocity.z * dt + 0.5 * i0.z * dt * dt⟩
    ⟨s.velocity.x + 0.5 * (i0.x + i1.x) * dt,
     s.velocity.y + 0.5 * (i0.y + i1.y) * dt,
     s.velocity.z + 0.5 * (i0.z + i1.z) * dt⟩

/-- The reference Velocity Verlet scheme of the spec for the map-based
simulator (claim C4): accelerations `a₀` of all bodies at the pre-step
positions; every position updated `x + v·dt + ½·a₀·dt²`; accelerations `a₁`
of all bodies at the new positions; every velocity updated
`v + ½·(a₀+a₁)·dt`. -/
def c4VerletSpecStates (sim : NBodySimulator) (dt : ℝ) :
    List (String × StateVector) :=
  let a0 := calculateAccelerations sim.bodies sim.states sim.config
  let newPositions := sim.states.map (fun p =>
      (p.1, c4SpecDriftState a0 dt p.1 p.2))
  let a1 := calculateAccelerations sim.bodies newPositions sim.config
  sim.states.map (fun p => (p.1, c4SpecFinalState a0 a1 dt p.1 p.2))

/-! ## The array-based N-body simulator (first class of
src/lib/physics/nbody-simulator.ts) -/
/-- `CelestialBody` of src/lib/types.ts, the fields the array-based
integrator reads (mass) plus identity and optional elements. -/
structure CelestialBody where
  name : String
  mass : ℝ
  radius : ℝ
  orbitalElements : Option OrbitalElements

/-- Inert stand-in for an out-of-range body index. -/
def defaultCB : CelestialBody := ⟨"", 0, 0, none⟩

/-- `calculateAcceleration(i, positions)` of the array-based simulator:
the summed contribution on body `i` of every body `j ≠ i`, with the same
`dist < 1e-10` skip guard. -/
def calculateAccelerationArr (bodies : List CelestialBody) (i : ℕ)
    (positions : List Vector3D) : Vector3D :=
  let pos := positions.getD i ⟨0, 0, 0⟩
  (List.range bodies.length).foldl (fun acc j =>
    if i = j then acc
    else
      let otherPos := positions.getD j ⟨0, 0, 0⟩
      let dx := otherPos.x - pos.x
      let dy := otherPos.y - pos.y
      let dz := otherPos.z - pos.z
      let distSq := dx * dx + dy * dy + dz * dz
      let dist := Real.sqrt distSq
      if dist < 1e-10 then acc
      else
        let force := G * (bodies.getD j defaultCB).mass / distSq
        let factor := force / dist
        ⟨acc.x + factor * dx, acc.y + factor * dy, acc.z + factor * dz⟩)
    ⟨0, 0, 0⟩

/-- `integrateVerlet(dt)` of the array-based simulator, indexing modelled
with `List.range`/`getD` (every index taken is in range). -/
def integrateVerletArr (bodies : List CelestialBody)
    (states : List StateVector) (dt : ℝ) : List StateVector :=
  let accelerations := (List.range states.length).map (fun i =>
    calculateAccelerationArr bodies i (states.map (fun s => s.position)))
  let newPositions := (List.range states.length).map (fun i =>
    let state := states.getD i defaultState
    let acc := accelerations.getD i ⟨0, 0, 0⟩
    (⟨state.position.x + state.velocity.x * dt + 0.5 * acc.x * dt * dt,
      state.position.y + state.velocity.y * dt + 0.5 * acc.y * dt * dt,
      state.position.z + state.velocity.z * dt + 0.5 * acc.z * dt * dt⟩ :
      Vector3D))
  let newAccelerations := (List.range states.length).map (fun i =>
    calculateAccelerationArr bodies i newPositions)
  (List.range states.length).map (fun i =>
    let state := states.getD i defaultState
    let acc := accelerations.getD i ⟨0, 0, 0⟩
    let newAcc := newAccelerations.getD i ⟨0, 0, 0⟩
    StateVector.mk (newPositions.getD i ⟨0, 0, 0⟩)
      ⟨state.velocity.x + 0.5 * (acc.x + newAcc.x) * dt,
       state.velocity.y + 0.5 * (acc.y + newAcc.y) * dt,
       state.velocity.z + 0.5 * (acc.z + newAcc.z) * dt⟩)

/-- The reference Velocity Verlet scheme of the spec for the array-based
simulator (claim C4). -/
def c4VerletSpecArr (bodies : List CelestialBody) (states : List StateVector)
    (dt : ℝ) : List StateVector :=
  let a0 := (List.range states.length).map (fun i =>
    calculateAccelerationArr bodies i (states.map (fun s => s.position)))
  let newPositions := (List.range states.length).map (fun i =>
    let state := states.getD i defaultState
    let acc := a0.getD i ⟨0, 0, 0⟩
    (⟨state.position.x + state.velocity.x * dt + 0.5 * acc.x * dt * dt,
      state.position.y + state.velocity.y * dt + 0.5 * acc.y * dt * dt,
      state.position.z + state.velocity.z * dt + 0.5 * acc.z * dt * dt⟩ :
      Vector3D))
  let a1 := (List.range states.length).map (fun i =>
    calculateAccelerationArr bodies i newPositions)
  (List.range states.length).map (fun i =>
    let state := states.getD i defaultState
    let i0 := a0.getD i ⟨0, 0, 0⟩
    let i1 := a1.getD i ⟨0, 0, 0⟩
    StateVector.mk (newPositions.getD i ⟨0, 0, 0⟩)
      ⟨state.velocity.x + 0.5 * (i0.x + i1.x) * dt,
       state.velocity.y + 0.5 * (i0.y + i1.y) * dt,
       state.velocity.z + 0.5 * (i0.z + i1.z) * dt⟩)

/-! ## Concrete bodies and configurations used by the witnesses -/
/-- Name constant for witnesses. -/
def sunName : String := "Sun"

/-- Name constant for witnesses. -/
def earthName : String := "Earth"

/-- Name constant for witnesses. -/
def marsName : String := "Mars"

/-- Name constant for witnesses. -/
def probeName : String := "Probe"

/-- Name constant for witnesses. -/
def ghostName : String := "Ghost"

/-- Witness center body. -/
def wSun : CelestialBodyProperties := ⟨sunName, 2, 1, true, none⟩

/-- Witness non-center body. -/
def wEarth : CelestialBodyProperties := ⟨earthName, 3, 1, false, none⟩

/-- Witness extra non-center body for the perturbation-toggle claim. -/
def wMars : CelestialBodyProperties := ⟨marsName, 5, 1, false, none⟩

/-- Witness states Map: the center at the origin, the non-center body 1 AU
away. -/
def wStates : List (String × StateVector) :=
  [(sunName, originState), (earthName, ⟨⟨AU, 0, 0⟩, ⟨0, 30000, 0⟩⟩)]

/-- Witness configuration with perturbations disabled. -/
def cfgOff : SimulationConfig := ⟨3600, 1, false, IntegrationMethod.rk4⟩

/-- Witness configuration with perturbations enabled. -/
def cfgOn : SimulationConfig := ⟨3600, 1, true, IntegrationMethod.verlet⟩

/-- Witness element set (circular 1 AU orbit, all angles zero, epoch 0). -/
def wElements : OrbitalElementsOM := ⟨1, 0, 0, 0, 0, 0, 0⟩

/-- Witness non-center body carrying orbital elements. -/
def wEarthEl : CelestialBodyProperties := ⟨earthName, 3, 1, false, some wElements⟩

/-- Witness body with neither the center flag nor orbital elements (state
supplied directly at registration). -/
def c7Probe : CelestialBodyProperties := ⟨probeName, 1, 1, false, none⟩

/-- The directly-supplied state of the probe. -/
def c7ProbeState : StateVector := ⟨⟨AU, 0, 0⟩, ⟨0, 1, 0⟩⟩

/-- Simulator holding only the probe, registered with an explicit state. -/
def c7Sim : NBodySimulator := addBody ⟨[], [], cfgOn, 0⟩ c7Probe (some c7ProbeState)

/-- Simulator with a center, an element-carrying body and the probe (no
states yet). -/
def c7Sim2 : NBodySimulator := ⟨[wSun, wEarthEl, c7Probe], [], cfgOff, 0⟩

/-- Simulator holding only the center body with the origin state. -/
def c9Sim : NBodySimulator := ⟨[wSun], [(sunName, originState)], cfgOn, 0⟩

/-- A reachable operation sequence: step, reconfigure, step again. -/
def c9Ops : List DriverOp :=
  [DriverOp.step, DriverOp.updateConfig cfgOff, DriverOp.step]

/-- Empty simulator for the addBody witness. -/
def c10Sim : NBodySimulator := ⟨[], [], cfgOff, 0⟩

/-! ## Theorems -/

theorem distOf_nonneg (a b : Vector3D) : 0 ≤ distOf a b := Real.sqrt_nonneg _

theorem distOf_sq (a b : Vector3D) :
    distOf a b * distOf a b =
      (b.x - a.x) * (b.x - a.x) + (b.y - a.y) * (b.y - a.y) +
        (b.z - a.z) * (b.z - a.z) := by
  have h : 0 ≤ (b.x - a.x) * (b.x - a.x) + (b.y - a.y) * (b.y - a.y) +
      (b.z - a.z) * (b.z - a.z) := by
    have h1 := mul_self_nonneg (b.x - a.x)
    have h2 := mul_self_nonneg (b.y - a.y)
    have h3 := mul_self_nonneg (b.z - a.z)
    linarith
  simpa [distOf] using Real.mul_self_sqrt h

/-- Claim C5: for all positions `A`, `B` and every mass `m ≥ 0`, the
gravitational acceleration function returns exactly
`G·m·(B−A)/|B−A|³` whenever `|B−A| ≥ 1e-10`, and returns the exact zero
vector whenever `|B−A| < 1e-10` (in particular for `A = B`), so the division
by `|B−A|` is never performed at a zero denominator. -/
theorem c5_gravitational_acceleration (A B : Vector3D) (m : ℝ) (_hm : 0 ≤ m) :
    (EPS ≤ distOf A B →
      calculateGravitationalAcceleration A B m =
        ⟨G * m * (B.x - A.x) / (distOf A B) ^ 3,
         G * m * (B.y - A.y) / (distOf A B) ^ 3,
         G * m * (B.z - A.z) / (distOf A B) ^ 3⟩) ∧
    (distOf A B < EPS → calculateGravitationalAcceleration A B m = ⟨0, 0, 0⟩) := by
  constructor
  · intro h
    have hlt : ¬ (distOf A B < EPS) := not_lt.mpr h
    have hpos : 0 < distOf A B := lt_of_lt_of_le (by norm_num [EPS]) h
    have hne : distOf A B ≠ 0 := ne_of_gt hpos
    have hsq := distOf_sq A B
    simp only [calculateGravitationalAcceleration, distOf, EPS] at hlt ⊢
    rw [if_neg hlt]
    have hd : Real.sqrt ((B.x - A.x) * (B.x - A.x) + (B.y - A.y) * (B.y - A.y) +
        (B.z - A.z) * (B.z - A.z)) = distOf A B := rfl
    rw [hd]
    have hcube : (distOf A B) ^ 3 = (distOf A B * distOf A B) * distOf A B := by ring
    refine Vector3D.ext ?_ ?_ ?_ <;>
      · simp only
        rw [hcube, ← hsq]
        field_simp
  · intro h
    simp only [calculateGravitationalAcceleration, distOf, EPS] at h ⊢
    rw [if_pos h]

/-- Witness for C5 at the concrete input `A = 0`, `B = (1,0,0)`, `m = 1`:
there `|B − A| = 1 ≥ 1e-10` and the formula branch applies. -/
theorem c5_witness :
    (0:ℝ) ≤ 1 ∧ EPS ≤ distOf ⟨0, 0, 0⟩ ⟨1, 0, 0⟩ ∧
      calculateGravitationalAcceleration ⟨0, 0, 0⟩ ⟨1, 0, 0⟩ 1 =
        ⟨G * 1 * ((1:ℝ) - 0) / (distOf ⟨0, 0, 0⟩ ⟨1, 0, 0⟩) ^ 3,
         G * 1 * ((0:ℝ) - 0) / (distOf ⟨0, 0, 0⟩ ⟨1, 0, 0⟩) ^ 3,
         G * 1 * ((0:ℝ) - 0) / (distOf ⟨0, 0, 0⟩ ⟨1, 0, 0⟩) ^ 3⟩ := by
  have hd : distOf (⟨0, 0, 0⟩ : Vector3D) ⟨1, 0, 0⟩ = 1 := by
    simp [distOf]
  refine ⟨by norm_num, ?_, ?_⟩
  · rw [hd]; norm_num [EPS]
  · exact (c5_gravitational_acceleration ⟨0, 0, 0⟩ ⟨1, 0, 0⟩ 1 (by norm_num)).1
      (by rw [hd]; norm_num [EPS])

theorem keplerIterOM_fixed (e M tolerance : ℝ) (htol : 0 < tolerance)
    (n : ℕ) (E : ℝ) (hE : E - e * Real.sin E - M = 0) :
    keplerIterOM e M tolerance (n + 1) E = E := by
  simp [keplerIterOM, hE, htol]

theorem solveKeplersEquation_zero (e : ℝ) :
    solveKeplersEquation 0 e 1e-10 = 0 := by
  have hmod : jsMod 0 (2 * Real.pi) = 0 := by
    simp [jsMod, jsTrunc]
  have h := keplerIterOM_fixed e 0 1e-10 (by norm_num) 99 0 (by simp)
  simp only [solveKeplersEquation, hmod, lt_irrefl, if_false, Real.sin_zero,
    mul_zero, add_zero]
  exact h

theorem atan2_zero_pos (x : ℝ) (hx : 0 < x) : atan2 0 x = 0 := by
  simp [atan2, hx]

theorem c2_code_velocity :
    (orbitalElementsToStateVector c2Elements 1 0).velocity =
      ⟨0, Real.sqrt (G * 1 / (1 * AU)), 0⟩ := by
  have ha : atan2 0 (Real.sqrt (1 - 1/2)) = 0 :=
    atan2_zero_pos _ (Real.sqrt_pos.mpr (by norm_num))
  have h34 : Real.sqrt (1 - 2⁻¹ * 2⁻¹ : ℝ) ≠ 0 :=
    Real.sqrt_ne_zero'.mpr (by norm_num)
  simp only [orbitalElementsToStateVector, c2Elements]
  simp [solveKeplersEquation_zero, ha]
  exact div_mul_cancel₀ _ h34

theorem c2_spec_velocity :
    c2SpecVelocityOM c2Elements 1 0 =
      ⟨0, G * 1 / Real.sqrt (G * 1 * (1 * AU) * (1 - 1/2 * (1/2))) * (1/2 + 1),
        0⟩ := by
  have ha : atan2 0 (Real.sqrt (1 - 1/2)) = 0 :=
    atan2_zero_pos _ (Real.sqrt_pos.mpr (by norm_num))
  have ha2 : atan2 0 (Real.sqrt (1 - 2⁻¹ : ℝ)) = 0 :=
    atan2_zero_pos _ (Real.sqrt_pos.mpr (by norm_num))
  simp only [c2SpecVelocityOM, c2Elements]
  simp [solveKeplersEquation_zero, ha, ha2, rot313, rotZ, rotX]

/-- Claim C2 fails on `OrbitalMechanics.orbitalElementsToStateVector`: at
`a = 1 AU`, `e = 1/2`, all angles zero, epoch 0, central mass 1 kg, the
converter's returned velocity is not the 3-1-3 rotation of the perifocal
vector `(−(μ/h)·sin ν, (μ/h)·(e + cos ν))` claimed by the spec.  (At this
input `E = ν = 0` and the rotation is the identity; the converter yields
`vy = sqrt(μ/a)` while the claimed formula yields `vy = sqrt(3)·sqrt(μ/a)`.) -/
theorem c2_counterexample :
    (orbitalElementsToStateVector c2Elements 1 0).velocity ≠
      c2SpecVelocityOM c2Elements 1 0 := by
  rw [c2_code_velocity, c2_spec_velocity]
  intro hEq
  have hy := congrArg Vector3D.y hEq
  simp only at hy
  have hG : (0:ℝ) < G := by norm_num [G]
  have hA : (0:ℝ) < AU := by norm_num [AU]
  have hin : (0:ℝ) < G * 1 * (1 * AU) * (1 - 1/2 * (1/2)) := by
    have h1 : ((1:ℝ) - 1/2 * (1/2)) = 3/4 := by norm_num
    rw [h1]
    positivity
  field_simp at hy
  have hy2 := congrArg (fun t : ℝ => t ^ 2) hy
  simp only [mul_pow] at hy2
  rw [Real.sq_sqrt hG.le, Real.sq_sqrt hA.le,
    Real.sq_sqrt (show (0:ℝ) ≤ 2 * 2 - 1 by norm_num)] at hy2
  nlinarith [hG, hA, hy2]

/-- Claim C2 (amended): for the risk-calculator converter
`calculateOrbitalState`, the returned velocity is exactly the 3-1-3 rotation
by `Ω`, `i`, `ω` of the perifocal velocity
`(−(μ/h)·sin ν, (μ/h)·(e + cos ν), 0)` with
`h = sqrt(μ·a_m·(1−e²))`, `μ = G·centralMass`, `a_m` the semi-major axis in
meters and `ν` the true anomaly; the epoch-aware converter
`orbitalElementsToStateVector` instead uses the eccentric-anomaly form
`(−(sqrt(μ/a)/sqrt(1−e²))·sin E, sqrt(μ/a)·cos E)`, which differs for
`e ≠ 0` (see the counterexample). -/
theorem c2_velocity_perifocal (elements : OrbitalElements)
    (centralBodyMass time : ℝ) :
    (calculateOrbitalState elements centralBodyMass time none).velocity =
      c2SpecVelocityRC elements centralBodyMass time := by
  simp only [calculateOrbitalState, c2SpecVelocityRC, rot313, rotZ, rotX]
  refine Vector3D.ext ?_ ?_ ?_ <;> · simp only; ring

/-! ## Association-list and fold infrastructure -/
theorem vadd_vzero (a : Vector3D) : vadd a vzero = a := by
  simp [vadd, vzero]

theorem vzero_vadd (a : Vector3D) : vadd vzero a = a := by
  simp [vadd, vzero]

theorem vadd_assoc (a b c : Vector3D) :
    vadd (vadd a b) c = vadd a (vadd b c) := by
  simp [vadd]; refine ⟨by ring, by ring, by ring⟩

theorem alookup_map_keyed {α β : Type} (f : String → α → β) :
    ∀ (l : List (String × α)) (n : String),
      alookup (l.map (fun p => (p.1, f p.1 p.2))) n = (alookup l n).map (f n)
  | [], _ => rfl
  | (k, v) :: rest, n => by
      by_cases h : k = n
      · subst h; simp [alookup]
      · simp [alookup, h, alookup_map_keyed f rest n]

theorem alookup_append_left {α : Type} {l₁ : List (String × α)} {n : String}
    {v : α} (h : alookup l₁ n = some v) (l₂ : List (String × α)) :
    alookup (l₁ ++ l₂) n = some v := by
  induction l₁ with
  | nil => simp [alookup] at h
  | cons p rest ih =>
      by_cases hk : p.1 = n
      · simp [alookup, hk] at h ⊢; exact h
      · simp [alookup, hk] at h ⊢; exact ih h

theorem alookup_append_right {α : Type} {l₁ : List (String × α)} {n : String}
    (h : alookup l₁ n = none) (l₂ : List (String × α)) :
    alookup (l₁ ++ l₂) n = alookup l₂ n := by
  induction l₁ with
  | nil => simp
  | cons p rest ih =>
      by_cases hk : p.1 = n
      · simp [alookup, hk] at h
      · simp [alookup, hk] at h ⊢; exact ih h

theorem alookup_singleton_ne {α : Type} (k : String) (v : α) (n : String)
    (h : k ≠ n) : alookup [(k, v)] n = none := by
  simp [alookup, h]

theorem alookup_setEntry_self {α : Type} (l : List (String × α)) (n : String)
    (v : α) : alookup (setEntry l n v) n = some v := by
  induction l with
  | nil => simp [setEntry, alookup]
  | cons p rest ih =>
      by_cases hk : p.1 = n
      · simp [setEntry, hk, alookup]
      · simp [setEntry, hk, alookup, ih]

theorem alookup_setEntry_ne {α : Type} (l : List (String × α))
    (n k : String) (v : α) (h : k ≠ n) :
    alookup (setEntry l n v) k = alookup l k := by
  have hnk : ¬ n = k := fun hx => h hx.symm
  induction l with
  | nil => simp [setEntry, alookup, hnk]
  | cons p rest ih =>
      by_cases hk : p.1 = n
      · have hpk : ¬ p.1 = k := by rw [hk]; exact hnk
        simp [setEntry, hk, alookup, hpk, hnk]
      · by_cases hp : p.1 = k
        · simp [setEntry, hk, alookup, hp, h]
        · simp [setEntry, hk, alookup, hp, ih]

theorem find?_append_none {α : Type} {p : α → Bool} {l₁ : List α}
    (h : l₁.find? p = none) (l₂ : List α) :
    (l₁ ++ l₂).find? p = l₂.find? p := by
  induction l₁ with
  | nil => simp
  | cons a rest ih =>
      cases hp : p a with
      | true =>
          simp only [List.find?, hp] at h
          exact Option.noConfusion h
      | false =>
          simp only [List.cons_append, List.find?, hp] at h ⊢
          exact ih h

theorem find?_append_some {α : Type} {p : α → Bool} {l₁ : List α} {a : α}
    (h : l₁.find? p = some a) (l₂ : List α) :
    (l₁ ++ l₂).find? p = some a := by
  induction l₁ with
  | nil => simp [List.find?] at h
  | cons b rest ih =>
      cases hp : p b with
      | true =>
          simp only [List.cons_append, List.find?, hp] at h ⊢
          exact h
      | false =>
          simp only [List.cons_append, List.find?, hp] at h ⊢
          exact ih h

theorem foldl_ext {α β : Type} (f g : β → α → β)
    (h : ∀ acc a, f acc a = g acc a) :
    ∀ (l : List α) (init : β), List.foldl f init l = List.foldl g init l
  | [], _ => rfl
  | a :: rest, init => by
      simp only [List.foldl_cons, h init a, foldl_ext f g h rest]

theorem option_pos_congr (o₁ o₂ : Option StateVector)
    (h : o₁.map (fun s => s.position) = o₂.map (fun s => s.position)) :
    (o₁.getD defaultState).position = (o₂.getD defaultState).position := by
  cases o₁ <;> cases o₂ <;> simp_all

/-- The acceleration assigned to an entry depends on the states Map only
through its name-to-position association, and on the entry's own state only
through its position. -/
theorem accelerationFor_pos_congr (bodies : List CelestialBodyProperties)
    (cfg : SimulationConfig) (S₁ S₂ : List (String × StateVector))
    (h : S₁.map (fun p => (p.1, p.2.position)) =
      S₂.map (fun p => (p.1, p.2.position)))
    (n : String) (s₁ s₂ : StateVector) (hs : s₁.position = s₂.position) :
    accelerationFor bodies S₁ cfg n s₁ = accelerationFor bodies S₂ cfg n s₂ := by
  have hlook : ∀ m, ((alookup S₁ m).getD defaultState).position =
      ((alookup S₂ m).getD defaultState).position := by
    intro m
    have h2 := congrArg (fun l => alookup l m) h
    simp only at h2
    rw [alookup_map_keyed (fun (_ : String) (v : StateVector) => v.position) S₁ m,
      alookup_map_keyed (fun (_ : String) (v : StateVector) => v.position) S₂ m]
      at h2
    exact option_pos_congr _ _ h2
  simp only [accelerationFor]
  rw [hs]
  by_cases hc : ((bodiesGet bodies n).getD defaultBody).isCenter = true
  · rw [if_pos hc, if_pos hc]
  · rw [if_neg hc, if_neg hc]
    by_cases hp : cfg.enablePerturbations = true
    · rw [if_pos hp, if_pos hp]
      refine foldl_ext _ _ (fun acc b => ?_) bodies (⟨0, 0, 0⟩ : Vector3D)
      by_cases hbn : b.name ≠ n
      · rw [if_pos hbn, if_pos hbn, hlook b.name]
      · rw [if_neg hbn, if_neg hbn]
    · rw [if_neg hp, if_neg hp]
      cases hf : findCenter bodies with
      | some c =>
          dsimp only
          rw [hlook c.name]
      | none => rfl

theorem map_keyed_congr (φ₁ φ₂ : String → StateVector → Vector3D)
    (hφ : ∀ n s₁ s₂, s₁.position = s₂.position → φ₁ n s₁ = φ₂ n s₂) :
    ∀ (S₁ S₂ : List (String × StateVector)),
      S₁.map (fun p => (p.1, p.2.position)) =
        S₂.map (fun p => (p.1, p.2.position)) →
      S₁.map (fun p => (p.1, φ₁ p.1 p.2)) = S₂.map (fun p => (p.1, φ₂ p.1 p.2))
  | [], [], _ => rfl
  | [], _ :: _, h => by simp at h
  | _ :: _, [], h => by simp at h
  | p :: s, q :: t, h => by
      simp only [List.map_cons, List.cons.injEq, Prod.mk.injEq] at h ⊢
      obtain ⟨⟨h1, h2⟩, h3⟩ := h
      refine ⟨⟨h1, ?_⟩, map_keyed_congr φ₁ φ₂ hφ s t h3⟩
      rw [h1]
      exact hφ q.1 p.2 q.2 h2

/-- `calculateAccelerations` depends on a states Map only through its
name-to-position association. -/
theorem calculateAccelerations_pos_congr (bodies : List CelestialBodyProperties)
    (cfg : SimulationConfig) (S₁ S₂ : List (String × StateVector))
    (h : S₁.map (fun p => (p.1, p.2.position)) =
      S₂.map (fun p => (p.1, p.2.position))) :
    calculateAccelerations bodies S₁ cfg = calculateAccelerations bodies S₂ cfg :=
  map_keyed_congr _ _
    (fun n s₁ s₂ hs => accelerationFor_pos_congr bodies cfg S₁ S₂ h n s₁ s₂ hs)
    S₁ S₂ h

/-- Claim C4: one `verletStep` of the map-based simulator — which applies
the velocity update in two half-kicks around the acceleration
recomputation — produces, for every registered body jointly and any signed
`dt`, exactly the states of the reference Velocity Verlet scheme
(`a₀` from the pre-step positions for all bodies, `x' = x + v·dt + ½·a₀·dt²`
for all bodies, `a₁` from the new positions for all bodies,
`v' = v + ½·(a₀+a₁)·dt`); and the array-based `integrateVerlet` is that
reference scheme verbatim.  No entry reads a partially-updated neighbor
position: both acceleration passes consume fixed whole-map snapshots. -/
theorem c4_verlet_reference :
    (∀ (sim : NBodySimulator) (dt : ℝ),
      (verletStep sim dt).states = c4VerletSpecStates sim dt) ∧
    (∀ (bodies : List CelestialBody) (states : List StateVector) (dt : ℝ),
      integrateVerletArr bodies states dt = c4VerletSpecArr bodies states dt) := by
  constructor
  · intro sim dt
    simp only [verletStep, c4VerletSpecStates]
    have hA : calculateAccelerations sim.bodies
        (sim.states.map (fun p => (p.1,
          verletState1 (calculateAccelerations sim.bodies sim.states sim.config)
            dt p.1 p.2))) sim.config =
      calculateAccelerations sim.bodies
        (sim.states.map (fun p => (p.1,
          c4SpecDriftState (calculateAccelerations sim.bodies sim.states
            sim.config) dt p.1 p.2))) sim.config := by
      apply calculateAccelerations_pos_congr
      rw [List.map_map, List.map_map]
      apply List.map_congr_left
      intro p _
      rfl
    rw [hA, List.map_map]
    apply List.map_congr_left
    intro p _
    simp only [Function.comp, verletState1, verletState2, c4SpecFinalState,
      c4SpecDriftState]
    refine Prod.ext rfl ?_
    simp only
    refine congrArg₂ StateVector.mk rfl ?_
    refine Vector3D.ext ?_ ?_ ?_ <;> · simp only; ring
  · intro bodies states dt
    rfl

theorem foldl_vadd_filter (f : CelestialBodyProperties → Vector3D)
    (name : String) :
    ∀ (bodies : List CelestialBodyProperties) (acc : Vector3D),
      bodies.foldl (fun a b => if b.name ≠ name then vadd a (f b) else a) acc =
        vadd acc
          (((bodies.filter (fun b => b.name ≠ name)).map f).foldr vadd vzero)
  | [], acc => by simp [vadd_vzero]
  | b :: rest, acc => by
      by_cases hb : b.name ≠ name
      · simp only [List.foldl_cons, if_pos hb, List.filter_cons,
          decide_eq_true hb, if_true, List.map_cons, List.foldr_cons]
        rw [foldl_vadd_filter f name rest (vadd acc (f b)), vadd_assoc]
      · simp only [List.foldl_cons, if_neg hb, List.filter_cons,
          decide_eq_false hb, Bool.false_eq_true, if_false]
        exact foldl_vadd_filter f name rest acc

theorem alookup_append_fresh {α : Type} (states : List (String × α))
    (xn : String) (sx : α) (m : String) (hm : xn ≠ m) :
    alookup (states ++ [(xn, sx)]) m = alookup states m := by
  cases hlk : alookup states m with
  | some w => rw [alookup_append_left hlk]
  | none => rw [alookup_append_right hlk, alookup_singleton_ne xn sx m hm]

theorem bodiesGet_append_fresh (bodies : List CelestialBodyProperties)
    (x : CelestialBodyProperties) (n : String) (hxn : ¬ x.name = n) :
    bodiesGet (bodies ++ [x]) n = bodiesGet bodies n := by
  unfold bodiesGet
  cases hf : bodies.find? (fun b => b.name = n) with
  | some c => rw [find?_append_some hf [x]]
  | none =>
      rw [find?_append_none hf [x]]
      simp [List.find?, hxn]

theorem findCenter_append_noncenter (bodies : List CelestialBodyProperties)
    (x : CelestialBodyProperties) (hx : x.isCenter = false) :
    findCenter (bodies ++ [x]) = findCenter bodies := by
  unfold findCenter
  cases hf : bodies.find? (fun b => b.isCenter) with
  | some c => rw [find?_append_some hf [x]]
  | none =>
      rw [find?_append_none hf [x]]
      simp [List.find?, hx]

/-- Claim C3, covering both acceleration routines of the simulator —
`calculateAccelerations` (Euler/Verlet steps) and `calculateDerivatives`
(every RK4 stage).  Parts a and c (two-run invariance): with perturbations
disabled, the acceleration/derivative computed for a non-center entry is
unchanged when a fresh non-center body (with any state whatever) is added
to the registry — so it depends only on the entry's own state and the
designated center body.  Parts b and d: with perturbations enabled, the
acceleration of a non-center body is, in both routines, the sum of the
pairwise Newtonian contributions of every other registered body. -/
theorem c3_gravitational_source_policy :
    (∀ (bodies : List CelestialBodyProperties)
       (states : List (String × StateVector)) (cfg : SimulationConfig)
       (x : CelestialBodyProperties) (sx : StateVector) (n : String),
      cfg.enablePerturbations = false →
      x.isCenter = false →
      (∀ b ∈ bodies, b.name ≠ x.name) →
      n ≠ x.name →
      alookup (calculateAccelerations (bodies ++ [x])
          (states ++ [(x.name, sx)]) cfg) n =
        alookup (calculateAccelerations bodies states cfg) n) ∧
    (∀ (bodies : List CelestialBodyProperties)
       (states : List (String × StateVector)) (cfg : SimulationConfig)
       (n : String) (s : StateVector) (b : CelestialBodyProperties),
      cfg.enablePerturbations = true →
      bodiesGet bodies n = some b →
      b.isCenter = false →
      accelerationFor bodies states cfg n s = c3PairwiseSum bodies states n s) ∧
    (∀ (bodies : List CelestialBodyProperties)
       (states : List (String × StateVector)) (cfg : SimulationConfig)
       (x : CelestialBodyProperties) (sx : StateVector) (n : String),
      cfg.enablePerturbations = false →
      x.isCenter = false →
      (∀ b ∈ bodies, b.name ≠ x.name) →
      n ≠ x.name →
      alookup (calculateDerivatives (bodies ++ [x]) cfg
          (states ++ [(x.name, sx)])) n =
        alookup (calculateDerivatives bodies cfg states) n) ∧
    (∀ (bodies : List CelestialBodyProperties)
       (states : List (String × StateVector)) (cfg : SimulationConfig)
       (n : String) (s : StateVector) (b : CelestialBodyProperties),
      cfg.enablePerturbations = true →
      bodiesGet bodies n = some b →
      b.isCenter = false →
      derivAccelerationFor bodies cfg states n s =
        c3PairwiseSum bodies states n s) := by
  refine ⟨?_, ?_, ?_, ?_⟩
  · intro bodies states cfg x sx n hp hx hfresh hn
    have hxn : ¬ x.name = n := fun hh => hn hh.symm
    have hacc : ∀ v, accelerationFor (bodies ++ [x])
        (states ++ [(x.name, sx)]) cfg n v =
        accelerationFor bodies states cfg n v := by
      intro v
      simp only [accelerationFor]
      rw [bodiesGet_append_fresh bodies x n hxn]
      by_cases hc : ((bodiesGet bodies n).getD defaultBody).isCenter = true
      · rw [if_pos hc, if_pos hc]
      · rw [if_neg hc, if_neg hc]
        simp only [hp, Bool.false_eq_true, if_false]
        rw [findCenter_append_noncenter bodies x hx]
        cases hf2 : findCenter bodies with
        | some c =>
            dsimp only
            rw [alookup_append_fresh states x.name sx c.name
              (Ne.symm (hfresh c (List.mem_of_find?_eq_some hf2)))]
        | none => rfl
    simp only [calculateAccelerations]
    rw [alookup_map_keyed, alookup_map_keyed]
    cases hlk : alookup states n with
    | some v =>
        rw [alookup_append_left hlk]
        simp only [Option.map_some']
        exact congrArg some (hacc v)
    | none =>
        rw [alookup_append_right hlk,
          alookup_singleton_ne x.name sx n (Ne.symm hn)]
        rfl
  · intro bodies states cfg n s b hp hb hc
    simp only [accelerationFor, c3PairwiseSum, hb, Option.getD_some]
    rw [if_neg (by simp [hc]), if_pos hp]
    rw [foldl_vadd_filter
      (fun b2 => calculateGravitationalAcceleration s.position
        ((alookup states b2.name).getD defaultState).position b2.mass) n bodies
      (⟨0, 0, 0⟩ : Vector3D)]
    exact vzero_vadd _
  · intro bodies states cfg x sx n hp hx hfresh hn
    have hxn : ¬ x.name = n := fun hh => hn hh.symm
    have hder : ∀ v, derivAccelerationFor (bodies ++ [x]) cfg
        (states ++ [(x.name, sx)]) n v =
        derivAccelerationFor bodies cfg states n v := by
      intro v
      simp only [derivAccelerationFor]
      rw [bodiesGet_append_fresh bodies x n hxn]
      simp only [hp, Bool.and_false, Bool.false_eq_true, if_false]
      by_cases hc : (!((bodiesGet bodies n).getD defaultBody).isCenter) = true
      · rw [if_pos hc, if_pos hc]
        rw [findCenter_append_noncenter bodies x hx]
        cases hf2 : findCenter bodies with
        | some c =>
            dsimp only
            rw [alookup_append_fresh states x.name sx c.name
              (Ne.symm (hfresh c (List.mem_of_find?_eq_some hf2)))]
        | none => rfl
      · rw [if_neg hc, if_neg hc]
    simp only [calculateDerivatives]
    rw [alookup_map_keyed (fun n2 s => Deriv.mk s.velocity
        (derivAccelerationFor (bodies ++ [x]) cfg (states ++ [(x.name, sx)])
          n2 s)) (states ++ [(x.name, sx)]) n,
      alookup_map_keyed (fun n2 s => Deriv.mk s.velocity
        (derivAccelerationFor bodies cfg states n2 s)) states n]
    cases hlk : alookup states n with
    | some v =>
        rw [alookup_append_left hlk]
        simp only [Option.map_some']
        rw [hder v]
    | none =>
        rw [alookup_append_right hlk,
          alookup_singleton_ne x.name sx n (Ne.symm hn)]
        rfl
  · intro bodies states cfg n s b hp hb hc
    simp only [derivAccelerationFor, c3PairwiseSum, hb, Option.getD_some, hc,
      hp, Bool.not_false, Bool.and_self, if_true]
    rw [foldl_vadd_filter
      (fun b2 => calculateGravitationalAcceleration s.position
        ((alookup states b2.name).getD defaultState).position b2.mass) n bodies
      (⟨0, 0, 0⟩ : Vector3D)]
    exact vzero_vadd _

/-- Witness for C3 at a concrete two-body registry (center plus one
non-center body), the extra body being a fresh non-center third body; the
perturbations-on parts are instantiated at the non-center body; both the
acceleration routine and the derivative routine are exercised. -/
theorem c3_witness :
    (cfgOff.enablePerturbations = false ∧ wMars.isCenter = false ∧
     (∀ b ∈ [wSun, wEarth], b.name ≠ wMars.name) ∧ earthName ≠ wMars.name ∧
     alookup (calculateAccelerations ([wSun, wEarth] ++ [wMars])
         (wStates ++ [(wMars.name, originState)]) cfgOff) earthName =
       alookup (calculateAccelerations [wSun, wEarth] wStates cfgOff)
         earthName ∧
     alookup (calculateDerivatives ([wSun, wEarth] ++ [wMars]) cfgOff
         (wStates ++ [(wMars.name, originState)])) earthName =
       alookup (calculateDerivatives [wSun, wEarth] cfgOff wStates)
         earthName) ∧
    (cfgOn.enablePerturbations = true ∧
     bodiesGet [wSun, wEarth] earthName = some wEarth ∧
     wEarth.isCenter = false ∧
     accelerationFor [wSun, wEarth] wStates cfgOn earthName originState =
       c3PairwiseSum [wSun, wEarth] wStates earthName originState ∧
     derivAccelerationFor [wSun, wEarth] cfgOn wStates earthName originState =
       c3PairwiseSum [wSun, wEarth] wStates earthName originState) := by
  have hfresh : ∀ b ∈ [wSun, wEarth], b.name ≠ wMars.name := by
    intro b hb
    simp only [List.mem_cons, List.not_mem_nil, or_false] at hb
    rcases hb with h | h <;> subst h <;> decide
  refine ⟨⟨rfl, rfl, hfresh, by decide, ?_, ?_⟩, ⟨rfl, rfl, rfl, ?_, ?_⟩⟩
  · exact c3_gravitational_source_policy.1 [wSun, wEarth] wStates cfgOff wMars
      originState earthName rfl rfl hfresh (by decide)
  · exact c3_gravitational_source_policy.2.2.1 [wSun, wEarth] wStates cfgOff
      wMars originState earthName rfl rfl hfresh (by decide)
  · exact c3_gravitational_source_policy.2.1 [wSun, wEarth] wStates cfgOn
      earthName originState wEarth rfl rfl rfl
  · exact c3_gravitational_source_policy.2.2.2 [wSun, wEarth] wStates cfgOn
      earthName originState wEarth rfl rfl rfl

/-- Claim C6: every `step()` advances the system by
`dt = timeStep × timeScale` from the current configuration (sign-aware, as
a product of reals), dispatches to the configured integration method with
that `dt`, and increases the epoch by exactly `dt / 86400` days; the body
registry and the configuration are unchanged. -/
theorem c6_step_bookkeeping (sim : NBodySimulator) :
    getCurrentTime sim.step =
      getCurrentTime sim +
        sim.config.timeStep * sim.config.timeScale / 86400 ∧
    sim.step.bodies = sim.bodies ∧
    sim.step.config = sim.config ∧
    sim.step.states =
      (match sim.config.integrationMethod with
       | IntegrationMethod.euler =>
           (eulerStep sim (sim.config.timeStep * sim.config.timeScale)).states
       | IntegrationMethod.verlet =>
           (verletStep sim (sim.config.timeStep * sim.config.timeScale)).states
       | IntegrationMethod.rk4 =>
           (rk4Step sim (sim.config.timeStep * sim.config.timeScale)).states) := by
  cases hm : sim.config.integrationMethod <;>
    simp [NBodySimulator.step, hm, eulerStep, verletStep, rk4Step,
      getCurrentTime]

/-! ## Center-body invariance (claim C9) -/
theorem accelerationFor_center (bodies : List CelestialBodyProperties)
    (S : List (String × StateVector)) (cfg : SimulationConfig) (n : String)
    (s : StateVector) (b : CelestialBodyProperties)
    (hb : bodiesGet bodies n = some b) (hc : b.isCenter = true) :
    accelerationFor bodies S cfg n s = ⟨0, 0, 0⟩ := by
  simp [accelerationFor, hb, hc]

theorem derivAccelerationFor_center (bodies : List CelestialBodyProperties)
    (cfg : SimulationConfig) (S : List (String × StateVector)) (n : String)
    (s : StateVector) (b : CelestialBodyProperties)
    (hb : bodiesGet bodies n = some b) (hc : b.isCenter = true) :
    derivAccelerationFor bodies cfg S n s = ⟨0, 0, 0⟩ := by
  simp [derivAccelerationFor, hb, hc]

theorem alookup_calculateAccelerations (bodies : List CelestialBodyProperties)
    (S : List (String × StateVector)) (cfg : SimulationConfig) (n : String) :
    alookup (calculateAccelerations bodies S cfg) n =
      (alookup S n).map (accelerationFor bodies S cfg n) := by
  simp only [calculateAccelerations]
  rw [alookup_map_keyed]

theorem eulerStep_center (sim : NBodySimulator) (dt : ℝ) (c : String)
    (b : CelestialBodyProperties) (hb : bodiesGet sim.bodies c = some b)
    (hc : b.isCenter = true) (h0 : alookup sim.states c = some originState) :
    alookup (eulerStep sim dt).states c = some originState := by
  simp only [eulerStep]
  rw [alookup_map_keyed, h0]
  simp only [Option.map_some']
  congr 1
  simp only [eulerState]
  rw [alookup_calculateAccelerations, h0]
  simp only [Option.map_some', Option.getD_some]
  rw [accelerationFor_center _ _ _ _ _ b hb hc]
  simp [originState]

theorem verletStep_center (sim : NBodySimulator) (dt : ℝ) (c : String)
    (b : CelestialBodyProperties) (hb : bodiesGet sim.bodies c = some b)
    (hc : b.isCenter = true) (h0 : alookup sim.states c = some originState) :
    alookup (verletStep sim dt).states c = some originState := by
  have h1 : verletState1
      (calculateAccelerations sim.bodies sim.states sim.config) dt c
      originState = originState := by
    simp only [verletState1]
    rw [alookup_calculateAccelerations, h0]
    simp only [Option.map_some', Option.getD_some]
    rw [accelerationFor_center _ _ _ _ _ b hb hc]
    simp [originState]
  simp only [verletStep]
  rw [alookup_map_keyed, alookup_map_keyed, h0]
  simp only [Option.map_some']
  congr 1
  rw [h1]
  simp only [verletState2]
  rw [alookup_calculateAccelerations, alookup_map_keyed, h0]
  simp only [Option.map_some', Option.getD_some]
  rw [h1, accelerationFor_center _ _ _ _ _ b hb hc]
  simp [originState]

theorem rk4Step_center (sim : NBodySimulator) (dt : ℝ) (c : String)
    (b : CelestialBodyProperties) (hb : bodiesGet sim.bodies c = some b)
    (hc : b.isCenter = true) (h0 : alookup sim.states c = some originState) :
    alookup (rk4Step sim dt).states c = some originState := by
  have hDer : ∀ S, alookup S c = some originState →
      alookup (calculateDerivatives sim.bodies sim.config S) c =
        some (⟨⟨0, 0, 0⟩, ⟨0, 0, 0⟩⟩ : Deriv) := by
    intro S hS
    simp only [calculateDerivatives]
    rw [alookup_map_keyed (fun n s => Deriv.mk s.velocity
      (derivAccelerationFor sim.bodies sim.config S n s)) S c, hS]
    simp only [Option.map_some']
    congr 1
    rw [derivAccelerationFor_center _ _ _ _ _ b hb hc]
    simp [originState]
  have hAdd : ∀ (D : List (String × Deriv)) (dtx : ℝ),
      alookup D c = some (⟨⟨0, 0, 0⟩, ⟨0, 0, 0⟩⟩ : Deriv) →
      ∀ S, alookup S c = some originState →
      alookup (addDerivatives S D dtx) c = some originState := by
    intro D dtx hD S hS
    simp only [addDerivatives]
    rw [alookup_map_keyed, hS]
    simp only [Option.map_some']
    congr 1
    simp only [addDerivState, hD, Option.getD_some]
    simp [originState]
  have h1 := hDer sim.states h0
  have hs2 := hAdd _ (dt / 2) h1 sim.states h0
  have h2 := hDer _ hs2
  have hs3 := hAdd _ (dt / 2) h2 sim.states h0
  have h3 := hDer _ hs3
  have hs4 := hAdd _ dt h3 sim.states h0
  have h4 := hDer _ hs4
  simp only [rk4Step]
  rw [alookup_map_keyed, h0]
  simp only [Option.map_some']
  congr 1
  simp only [rk4FinalState, h1, h2, h3, h4, Option.getD_some]
  simp [originState]

theorem step_preserves_bodies (sim : NBodySimulator) :
    sim.step.bodies = sim.bodies := by
  cases hm : sim.config.integrationMethod <;>
    simp [NBodySimulator.step, hm, eulerStep, verletStep, rk4Step]

theorem step_center (sim : NBodySimulator) (c : String)
    (b : CelestialBodyProperties) (hb : bodiesGet sim.bodies c = some b)
    (hc : b.isCenter = true) (h0 : alookup sim.states c = some originState) :
    alookup sim.step.states c = some originState := by
  cases hm : sim.config.integrationMethod with
  | euler =>
      simp only [NBodySimulator.step, hm]
      exact eulerStep_center sim _ c b hb hc h0
  | verlet =>
      simp only [NBodySimulator.step, hm]
      exact verletStep_center sim _ c b hb hc h0
  | rk4 =>
      simp only [NBodySimulator.step, hm]
      exact rk4Step_center sim _ c b hb hc h0

theorem runOps_center (c : String) (b : CelestialBodyProperties) :
    ∀ (ops : List DriverOp) (sim : NBodySimulator),
      bodiesGet sim.bodies c = some b → b.isCenter = true →
      alookup sim.states c = some originState →
      alookup (runOps sim ops).states c = some originState
  | [], sim, _, _, h0 => h0
  | DriverOp.step :: rest, sim, hb, hc, h0 => by
      have hb2 : bodiesGet sim.step.bodies c = some b := by
        rw [step_preserves_bodies]; exact hb
      exact runOps_center c b rest sim.step hb2 hc (step_center sim c b hb hc h0)
  | DriverOp.updateConfig cfg :: rest, sim, hb, hc, h0 =>
      runOps_center c b rest (updateConfig sim cfg) hb hc h0

/-- Claim C9: a body whose properties carry the `isCenter` flag is assigned
the zero acceleration in every acceleration evaluation and every derivative
evaluation (for any states snapshot and configuration whatever); and a
center body holding the origin state (zero position, zero velocity) keeps
exactly that state across every reachable sequence of `step()` and
`updateConfig` calls, under all three integration methods. -/
theorem c9_center_invariant (sim : NBodySimulator) (ops : List DriverOp)
    (c : String) (b : CelestialBodyProperties)
    (hb : bodiesGet sim.bodies c = some b) (hc : b.isCenter = true)
    (h0 : getState sim c = some originState) :
    (∀ (S : List (String × StateVector)) (cfg : SimulationConfig)
       (s : StateVector), accelerationFor sim.bodies S cfg c s = ⟨0, 0, 0⟩) ∧
    (∀ (S : List (String × StateVector)) (cfg : SimulationConfig)
       (s : StateVector),
       derivAccelerationFor sim.bodies cfg S c s = ⟨0, 0, 0⟩) ∧
    getState (runOps sim ops) c = some originState :=
  ⟨fun S cfg s => accelerationFor_center sim.bodies S cfg c s b hb hc,
   fun S cfg s => derivAccelerationFor_center sim.bodies cfg S c s b hb hc,
   runOps_center c b ops sim hb hc h0⟩

/-- Witness for C9: a one-body simulator holding just the center at the
origin, run through step, reconfigure, step. -/
theorem c9_witness :
    bodiesGet c9Sim.bodies sunName = some wSun ∧ wSun.isCenter = true ∧
    getState c9Sim sunName = some originState ∧
    getState (runOps c9Sim c9Ops) sunName = some originState :=
  ⟨rfl, rfl, rfl,
    (c9_center_invariant c9Sim c9Ops sunName wSun rfl rfl rfl).2.2⟩

/-! ## Reset semantics (claim C7) -/
theorem resetStepFn_produce (allBodies : List CelestialBodyProperties)
    (t : ℝ) (sts : List (String × StateVector))
    (body : CelestialBodyProperties) :
    resetStepFn allBodies t sts body =
      (match resetProduce allBodies t body with
       | some st => setEntry sts body.name st
       | none => sts) := by
  cases hel : body.orbitalElements with
  | none => cases hic : body.isCenter <;> simp [resetStepFn, resetProduce, hel, hic]
  | some el =>
      cases hic : body.isCenter with
      | true => simp [resetStepFn, resetProduce, hel, hic]
      | false =>
          cases hfc : findCenter allBodies <;>
            simp [resetStepFn, resetProduce, hel, hic, hfc]

theorem reset_foldl_lookup (allBodies : List CelestialBodyProperties)
    (t : ℝ) :
    ∀ (bodies : List CelestialBodyProperties)
      (sts : List (String × StateVector)) (n : String),
      (bodies.map (fun b => b.name)).Nodup →
      alookup (bodies.foldl (resetStepFn allBodies t) sts) n =
        (match bodiesGet bodies n with
         | some b =>
             (match resetProduce allBodies t b with
              | some st => some st
              | none => alookup sts n)
         | none => alookup sts n)
  | [], sts, n, _ => rfl
  | b :: rest, sts, n, hnd => by
      rw [List.map_cons, List.nodup_cons] at hnd
      obtain ⟨hbn, hnd'⟩ := hnd
      simp only [List.foldl_cons]
      rw [reset_foldl_lookup allBodies t rest (resetStepFn allBodies t sts b) n
        hnd']
      by_cases hn : b.name = n
      · subst hn
        have hbg : bodiesGet (b :: rest) b.name = some b := by
          simp [bodiesGet, List.find?]
        have hrest : bodiesGet rest b.name = none := by
          apply List.find?_eq_none.mpr
          intro x hx
          simp only [decide_eq_true_eq]
          intro hxe
          exact hbn (hxe ▸ List.mem_map_of_mem (fun b2 => b2.name) hx)
        rw [hbg, hrest, resetStepFn_produce]
        cases hp : resetProduce allBodies t b with
        | some st =>
            dsimp only
            rw [alookup_setEntry_self, hp]
        | none =>
            dsimp only
            rw [hp]
      · have hbg : bodiesGet (b :: rest) n = bodiesGet rest n := by
          simp [bodiesGet, List.find?, hn]
        have hst : alookup (resetStepFn allBodies t sts b) n = alookup sts n := by
          rw [resetStepFn_produce]
          cases hp : resetProduce allBodies t b with
          | some st =>
              dsimp only
              exact alookup_setEntry_ne sts b.name n st (fun hh => hn hh.symm)
          | none => rfl
        rw [hbg, hst]

/-- Claim C7 fails as stated: a body registered with a directly supplied
initial state and no orbital elements (which the data model explicitly
allows) has a state before `reset`, but after `reset` its state is gone —
`reset` only rebuilds states for the center body and for element-carrying
bodies. -/
theorem c7_counterexample :
    getState c7Sim probeName = some c7ProbeState ∧
    getState (reset c7Sim 0) probeName = none :=
  ⟨rfl, rfl⟩

/-- Claim C7 (amended): `reset(t)` sets the current epoch to `t` and
recomputes the states Map from the registry alone (clearing all integrated
state): the center body gets the origin state; every non-center body with
orbital elements gets the state derived from its elements at epoch `t`
(when a center exists); but a non-center body without orbital elements —
one whose state was supplied directly at registration — is left with no
state, as is any unregistered name. -/
theorem c7_reset_amended (sim : NBodySimulator) (t : ℝ)
    (hnd : (sim.bodies.map (fun b => b.name)).Nodup) :
    (reset sim t).currentTime = t ∧
    (∀ n b, bodiesGet sim.bodies n = some b → b.isCenter = true →
      getState (reset sim t) n = some originState) ∧
    (∀ n b el cb, bodiesGet sim.bodies n = some b → b.isCenter = false →
      b.orbitalElements = some el → findCenter sim.bodies = some cb →
      getState (reset sim t) n =
        some (orbitalElementsToStateVector el cb.mass t)) ∧
    (∀ n b, bodiesGet sim.bodies n = some b → b.isCenter = false →
      b.orbitalElements = none → getState (reset sim t) n = none) ∧
    (∀ n, bodiesGet sim.bodies n = none → getState (reset sim t) n = none) := by
  refine ⟨rfl, ?_, ?_, ?_, ?_⟩
  · intro n b hbg hic
    simp only [getState, reset]
    rw [reset_foldl_lookup sim.bodies t sim.bodies [] n hnd, hbg]
    dsimp only
    have hpc : resetProduce sim.bodies t b = some originState := by
      cases hel : b.orbitalElements <;>
        simp [resetProduce, hel, hic, originState]
    rw [hpc]
  · intro n b el cb hbg hic hel hfc
    simp only [getState, reset]
    rw [reset_foldl_lookup sim.bodies t sim.bodies [] n hnd, hbg]
    dsimp only
    have hpc : resetProduce sim.bodies t b =
        some (orbitalElementsToStateVector el cb.mass t) := by
      simp [resetProduce, hel, hic, hfc]
    rw [hpc]
  · intro n b hbg hic hel
    simp only [getState, reset]
    rw [reset_foldl_lookup sim.bodies t sim.bodies [] n hnd, hbg]
    dsimp only
    have hpc : resetProduce sim.bodies t b = none := by
      simp [resetProduce, hel, hic]
    rw [hpc]
    rfl
  · intro n hbg
    simp only [getState, reset]
    rw [reset_foldl_lookup sim.bodies t sim.bodies [] n hnd, hbg]
    rfl

/-- Witness for the amended C7 at a three-body registry: the center, an
element-carrying body and an element-less probe, reset to epoch 7. -/
theorem c7_witness :
    (c7Sim2.bodies.map (fun b => b.name)).Nodup ∧
    (reset c7Sim2 7).currentTime = 7 ∧
    bodiesGet c7Sim2.bodies sunName = some wSun ∧ wSun.isCenter = true ∧
    getState (reset c7Sim2 7) sunName = some originState ∧
    bodiesGet c7Sim2.bodies earthName = some wEarthEl ∧
    wEarthEl.isCenter = false ∧ wEarthEl.orbitalElements = some wElements ∧
    findCenter c7Sim2.bodies = some wSun ∧
    getState (reset c7Sim2 7) earthName =
      some (orbitalElementsToStateVector wElements wSun.mass 7) ∧
    bodiesGet c7Sim2.bodies probeName = some c7Probe ∧
    c7Probe.isCenter = false ∧ c7Probe.orbitalElements = none ∧
    getState (reset c7Sim2 7) probeName = none ∧
    bodiesGet c7Sim2.bodies ghostName = none ∧
    getState (reset c7Sim2 7) ghostName = none := by
  have hnd : (c7Sim2.bodies.map (fun b => b.name)).Nodup := by
    simp [c7Sim2, wSun, wEarthEl, c7Probe, sunName, earthName, probeName]
  obtain ⟨h1, h2, h3, h4, h5⟩ := c7_reset_amended c7Sim2 7 hnd
  exact ⟨hnd, h1, rfl, rfl, h2 sunName wSun rfl rfl, rfl, rfl, rfl, rfl,
    h3 earthName wEarthEl wElements wSun rfl rfl rfl rfl, rfl, rfl, rfl,
    h4 probeName c7Probe rfl rfl rfl, rfl, h5 ghostName rfl⟩

/-! ## addBody without a center (claim C10) -/
theorem mem_setBody :
    ∀ (l : List CelestialBodyProperties) (b x : CelestialBodyProperties),
      x ∈ setBody l b → x ∈ l ∨ x = b
  | [], b, x, h => by
      simp only [setBody, List.mem_singleton] at h
      exact Or.inr h
  | c :: rest, b, x, h => by
      by_cases hc : c.name = b.name
      · simp only [setBody, if_pos hc, List.mem_cons] at h
        rcases h with h | h
        · exact Or.inr h
        · exact Or.inl (List.mem_cons_of_mem c h)
      · simp only [setBody, if_neg hc, List.mem_cons] at h
        rcases h with h | h
        · exact Or.inl (h ▸ List.mem_cons_self c rest)
        · rcases mem_setBody rest b x h with h2 | h2
          · exact Or.inl (List.mem_cons_of_mem c h2)
          · exact Or.inr h2

/-- Claim C10: registering a non-center body that has orbital elements and
no explicitly supplied state, while the registry holds no center body,
never raises: the body is added to the registry, yet no state is derived or
stored for it, so `getState` keeps returning the absent value for its name
(until some later reset performed when a center exists). -/
theorem c10_addBody_no_center (sim : NBodySimulator)
    (body : CelestialBodyProperties) (el : OrbitalElementsOM)
    (hel : body.orbitalElements = some el) (hic : body.isCenter = false)
    (hnc : findCenter sim.bodies = none) :
    (addBody sim body none).bodies = setBody sim.bodies body ∧
    (addBody sim body none).states = sim.states ∧
    (getState sim body.name = none →
      getState (addBody sim body none) body.name = none) := by
  have hall := List.find?_eq_none.mp hnc
  have hnone : findCenter (setBody sim.bodies body) = none := by
    apply List.find?_eq_none.mpr
    intro x hx
    rcases mem_setBody sim.bodies body x hx with h | h
    · exact hall x h
    · subst h
      simp [hic]
  refine ⟨?_, ?_, ?_⟩
  · simp only [addBody, hel, hic, hnone]
  · simp only [addBody, hel, hic, hnone]
  · intro h
    simp only [getState] at h ⊢
    simp only [addBody, hel, hic, hnone]
    exact h

/-- Witness for C10: an element-carrying non-center body added to an empty
registry. -/
theorem c10_witness :
    wEarthEl.orbitalElements = some wElements ∧ wEarthEl.isCenter = false ∧
    findCenter c10Sim.bodies = none ∧
    (addBody c10Sim wEarthEl none).bodies = setBody c10Sim.bodies wEarthEl ∧
    (addBody c10Sim wEarthEl none).states = c10Sim.states ∧
    getState (addBody c10Sim wEarthEl none) wEarthEl.name = none := by
  obtain ⟨h1, h2, h3⟩ := c10_addBody_no_center c10Sim wEarthEl wElements rfl rfl rfl
  exact ⟨rfl, rfl, rfl, h1, h2, h3 rfl⟩

end

end Apophis
